import Mathlib

/-!
Verification of the Azure-Tools repository's specification against a shallow
embedding of its Python sources.

Embedded modules:
* `src/sku_availability/filter_skus.py` — SKU availability filtering.
* `src/azure-service-principal/scripts/create/create_iam.py` — role-assignment creation.
* `src/azure-service-principal/scripts/create/create_client_secret.py` — client-secret issuance.
* `src/identity-management/scripts/destroy/destroy_iam.py` — teardown reconciliation.

Remote APIs (Microsoft Graph, the authorization management client) are modelled
as environments whose calls either return data or fail with an `ApiError`,
matching the spec's treatment of them as opaque services.  Python `None` is
modelled as `Option.none`; a Python function body that can `raise` is modelled
as returning `Except`.
-/

/-- An error raised by a remote API call (the embedding treats remote services
as opaque: a call either yields a value or raises). -/
structure ApiError where
  msg : String
deriving DecidableEq, Repr

/-! ## SKU availability filter (`src/sku_availability/filter_skus.py`) -/

/-- The `restrictionInfo` object of a restriction: `r.get("restrictionInfo", {}).get("locations", [])`.
The `locations` key may be absent. -/
structure RestrictionInfo where
  locations : Option (List String)
deriving DecidableEq, Repr

/-- One element of a SKU's `restrictions` array.  All keys are accessed with
`dict.get`, so each may be absent. -/
structure Restriction where
  type : Option String
  reasonCode : Option String
  restrictionInfo : Option RestrictionInfo
deriving DecidableEq, Repr

/-- A SKU record; the filter only reads `sku.get("restrictions", [])`. -/
structure Sku where
  restrictions : Option (List Restriction)
deriving DecidableEq, Repr

/-- Function `is_fully_available(sku, location)` from `filter_skus.py` lines 10–20:
returns `True` on an empty (or absent) restriction list, otherwise scans the
restrictions and returns `False` as soon as one has `type == "Location"`,
`reasonCode == "NotAvailableForSubscription"` and the queried location in its
`restrictionInfo.locations`; returns `True` after the loop. -/
def is_fully_available (sku : Sku) (location : String) : Bool :=
  let restrictions := sku.restrictions.getD []
  if restrictions.isEmpty then
    true
  else
    !restrictions.any (fun r =>
      r.type == some "Location" &&
      r.reasonCode == some "NotAvailableForSubscription" &&
      ((r.restrictionInfo.getD { locations := none }).locations.getD []).contains location)

/-- The list comprehension `[obj for obj in all_skus if is_fully_available(obj, location)]`. -/
def filter_skus (all_skus : List Sku) (location : String) : List Sku :=
  all_skus.filter (fun obj => is_fully_available obj location)

/-- The condition under which `is_fully_available` rejects a SKU, as a predicate
on a single restriction. -/
def locationRestricted (location : String) (r : Restriction) : Prop :=
  r.type = some "Location" ∧
  r.reasonCode = some "NotAvailableForSubscription" ∧
  location ∈ (r.restrictionInfo.getD { locations := none }).locations.getD []

instance (location : String) (r : Restriction) : Decidable (locationRestricted location r) := by
  unfold locationRestricted; infer_instance

/-! ## Role-assignment creation
(`src/azure-service-principal/scripts/create/create_iam.py`, `assign_iam_role_async`) -/

/-- A role definition as read back from the authorization API
(`role_definition.id`, `role_def.role_name`). -/
structure RoleDefinition where
  id : String
  role_name : String
deriving DecidableEq, Repr

/-- A role assignment as listed by the authorization API. -/
structure RoleAssignment where
  id : String
  name : String
  principal_id : String
  role_definition_id : String
  scope : String
deriving DecidableEq, Repr

/-- Parameters `RoleAssignmentCreateParameters(role_definition_id=…, principal_id=…, principal_type="ServicePrincipal")`. -/
structure RoleAssignmentCreateParameters where
  role_definition_id : String
  principal_id : String
  principal_type : String
deriving DecidableEq, Repr

/-- Environment seen by one run of `assign_iam_role_async`: the outcome of each
remote call it can make.  `role_definitions` is the collection held at the
scope; the listing call applies the server-side filter `roleName eq '<role>'`
to it.  `fresh_name` is the `str(uuid4())` value generated for the create call. -/
structure AssignEnv where
  role_definitions : Except ApiError (List RoleDefinition)
  existing_assignments : Except ApiError (List RoleAssignment)
  create_result : Except ApiError RoleAssignment
  fresh_name : String

/-- Failure modes of `assign_iam_role_async`: a propagated remote failure, or
the `raise Exception(f"Role '{role}' not found")` at line 37. -/
inductive AssignError where
  | api (e : ApiError)
  | roleNotFound (role : String)
deriving DecidableEq, Repr

/-- Observable outcome of a non-raising run of `assign_iam_role_async`:
`retval` is the Python return value — the function only ever executes a bare
`return` (line 50) or falls off the end, so it is always `none` — and
`create_calls` records each `role_assignments.create(scope, name, params)`
call issued. -/
structure AssignOutcome where
  retval : Option RoleAssignment
  create_calls : List (String × String × RoleAssignmentCreateParameters)
deriving DecidableEq, Repr

/-- Shallow embedding of `assign_iam_role_async` (create_iam.py lines 9–81).
The `try`/`except` wrapper prints and re-raises, so every failure propagates. -/
def assign_iam_role_async (env : AssignEnv) (sp_obj_id role scope : String) :
    Except AssignError AssignOutcome := do
  -- role_definitions = list(auth_client.role_definitions.list(scope, filter="roleName eq '<role>'"))
  let all_defs ← env.role_definitions.mapError AssignError.api
  let role_definitions := all_defs.filter (fun d => d.role_name == role)
  match role_definitions with
  | [] =>
    -- if not role_definitions: raise Exception(f"Role '{role}' not found")
    Except.error (AssignError.roleNotFound role)
  | rd :: _ =>
    -- role_definition_id = role_definitions[0].id
    let role_definition_id := rd.id
    -- existing_assignments = list(auth_client.role_assignments.list_for_scope(scope))
    let existing_assignments ← env.existing_assignments.mapError AssignError.api
    -- for assignment in existing_assignments: if match: return   (bare return -> None)
    match existing_assignments.find? (fun assignment =>
        assignment.principal_id == sp_obj_id &&
        assignment.role_definition_id == role_definition_id) with
    | some _ => Except.ok { retval := none, create_calls := [] }
    | none =>
      let role_assignment_params : RoleAssignmentCreateParameters :=
        { role_definition_id := role_definition_id
          principal_id := sp_obj_id
          principal_type := "ServicePrincipal" }
      -- role_assignment = auth_client.role_assignments.create(scope, role_assignment_name, params)
      let _role_assignment ← env.create_result.mapError AssignError.api
      -- function falls off the end after the success prints -> returns None
      Except.ok { retval := none
                  create_calls := [(scope, env.fresh_name, role_assignment_params)] }

/-! ## Client-secret issuance
(`src/azure-service-principal/scripts/create/create_client_secret.py`, `create_client_secret_async`) -/

/-- An application as listed by `graph_client.applications.get()`:
`app.id` (object id) and `app.app_id` (application id). -/
structure Application where
  id : String
  app_id : String
deriving DecidableEq, Repr

/-- A `relativedelta(years=…, months=…, days=…)`. -/
structure RelativeDelta where
  years : Int
  months : Int
  days : Int
deriving DecidableEq, Repr

/-- Free term model of datetimes: the code only ever forms
`datetime.now() + relativedelta(…)`, which we keep symbolic. -/
inductive PyDateTime where
  | now
  | add (base : PyDateTime) (delta : RelativeDelta)
deriving DecidableEq, Repr

/-- A `PasswordCredential()` with `display_name` and `end_date_time` set. -/
structure PasswordCredential where
  display_name : String
  end_date_time : PyDateTime
deriving DecidableEq, Repr

/-- Result of `applications.by_application_id(obj_id).get()`; only
`password_credentials` is read, and it may be `None` (hence the `or []`). -/
structure AppDetails where
  password_credentials : Option (List PasswordCredential)
deriving DecidableEq, Repr

/-- Result of `add_password.post(...)`: the freshly created secret. -/
structure AddedSecret where
  secret_text : String
  key_id : String
deriving DecidableEq, Repr

/-- The `expiry_config` dict: each key read with
`expiry_config.get('EXPIRY_*', default)`, so each may be absent. -/
structure ExpiryConfig where
  EXPIRY_YEARS : Option Int
  EXPIRY_MONTHS : Option Int
  EXPIRY_DAYS : Option Int
deriving DecidableEq, Repr

/-- Environment seen by one run of `create_client_secret_async`. -/
structure GraphEnv where
  applications : Except ApiError (List Application)
  app_details : String → Except ApiError AppDetails
  add_password : String → PasswordCredential → Except ApiError AddedSecret

/-- Failure modes: propagated remote failure, or
`raise Exception(f"Application with ID {app_id} not found")`. -/
inductive CSError where
  | api (e : ApiError)
  | appNotFound (app_id : String)
deriving DecidableEq, Repr

/-- Sentinel returned when existing credentials are found (line 53). -/
def EXISTING_SECRET_SENTINEL : String := "[EXISTING_SECRET_VALUE_NOT_RETRIEVABLE]"

/-- Observable outcome of a non-raising run: the returned string and the
`add_password.post` calls issued (object id, credential posted). -/
structure CSOutcome where
  retval : String
  add_password_calls : List (String × PasswordCredential)
deriving DecidableEq, Repr

/-- The secret-creation tail of `create_client_secret_async` (lines 60–83),
reached both when no existing secrets were found and when the existence check
itself raised. -/
def create_client_secret_tail (env : GraphEnv) (app_object_id secret_name : String)
    (expiry_config : ExpiryConfig) : Except CSError CSOutcome := do
  -- end_date = datetime.now() + relativedelta(years=get('EXPIRY_YEARS',2), months=get('EXPIRY_MONTHS',0), days=get('EXPIRY_DAYS',0))
  let end_date := PyDateTime.add PyDateTime.now
    { years := expiry_config.EXPIRY_YEARS.getD 2
      months := expiry_config.EXPIRY_MONTHS.getD 0
      days := expiry_config.EXPIRY_DAYS.getD 0 }
  let password_credential : PasswordCredential :=
    { display_name := secret_name, end_date_time := end_date }
  -- created_secret = await ...add_password.post(password_credential)
  let created_secret ← (env.add_password app_object_id password_credential).mapError CSError.api
  -- return client_secret_value  (= created_secret.secret_text)
  Except.ok { retval := created_secret.secret_text
              add_password_calls := [(app_object_id, password_credential)] }

/-- Shallow embedding of `create_client_secret_async` (lines 9–88).  The outer
`try`/`except` prints and re-raises; the inner `try`/`except` around the
existence check swallows the error and proceeds to creation. -/
def create_client_secret_async (env : GraphEnv) (app_id secret_name : String)
    (expiry_config : ExpiryConfig) : Except CSError CSOutcome := do
  -- applications = await graph_client.applications.get()
  let applications ← env.applications.mapError CSError.api
  -- for app in applications.value: if app.app_id == app_id: app_object_id = app.id; break
  match applications.find? (fun app => app.app_id == app_id) with
  | none =>
    -- if not app_object_id: raise Exception(...)
    Except.error (CSError.appNotFound app_id)
  | some app =>
    let app_object_id := app.id
    -- try: app_details = await ...by_application_id(app_object_id).get()
    match env.app_details app_object_id with
    | Except.ok app_details =>
      -- existing_secrets = app_details.password_credentials or []
      let existing_secrets := app_details.password_credentials.getD []
      if existing_secrets.isEmpty then
        create_client_secret_tail env app_object_id secret_name expiry_config
      else
        -- return "[EXISTING_SECRET_VALUE_NOT_RETRIEVABLE]"
        Except.ok { retval := EXISTING_SECRET_SENTINEL, add_password_calls := [] }
    | Except.error _ =>
      -- except: print("Could not check existing secrets"); proceed with creation
      create_client_secret_tail env app_object_id secret_name expiry_config

/-! ## Teardown reconciliation
(`src/identity-management/scripts/destroy/destroy_iam.py`, `remove_all_iam_roles_async`) -/

/-- A service principal as listed by `graph_client.service_principals.get()`. -/
structure ServicePrincipal where
  id : String
  display_name : String
deriving DecidableEq, Repr

/-- Python truthiness of an optional string argument: `None` and `""` are falsy
(the code tests `if not sp_obj_id`, and callers pass `None` when absent). -/
def truthy : Option String → Bool
  | none => false
  | some s => !(s == "")

/-- The string value of an optional argument where the code uses it as a string. -/
def optStr : Option String → String
  | none => ""
  | some s => s

/-- Python's substring test `needle in hay` on lists of characters. -/
def charsIn (needle : List Char) : List Char → Bool
  | [] => needle.isEmpty
  | c :: rest => needle.isPrefixOf (c :: rest) || charsIn needle rest

/-- Python's substring test `needle in hay` on strings. -/
def str_in (needle hay : String) : Bool :=
  charsIn needle.toList hay.toList

/-- Environment seen by one run of `remove_all_iam_roles_async`:
`service_principals` is `graph_client.service_principals.get()`,
`all_assignments` is `role_assignments.list_for_subscription()`,
`get_role_definition` is `role_definitions.get_by_id(id)` and
`delete_by_id` is `role_assignments.delete_by_id(id)`. -/
structure DestroyEnv where
  service_principals : Except ApiError (List ServicePrincipal)
  all_assignments : Except ApiError (List RoleAssignment)
  get_role_definition : String → Except ApiError RoleDefinition
  delete_by_id : String → Except ApiError Unit

/-- The only error `remove_all_iam_roles_async` can raise:
`raise ValueError("Either sp_obj_id or sp_name must be provided")` at line 15,
issued before the `try` block (the trailing `except` swallows everything else). -/
inductive DestroyError where
  | invalidArgument
deriving DecidableEq, Repr

/-- Observable outcome of one run of `remove_all_iam_roles_async`.
`retval` is the Python outcome: `Except.error .invalidArgument` for the
`ValueError`, otherwise `Except.ok none` — every other exit is a bare `return`
or fall-through, i.e. `None`; the `some` alternative exists only so that the
spec's claimed `{found, removed}` return value is expressible.
`caught` records a remote listing failure swallowed by the outer `except`
(after which the fields below keep their initial empty/zero values, as the
code never computed them).  The remaining fields are the code's local
variables and the `delete_by_id` calls issued, in order. -/
structure DestroyRun where
  retval : Except DestroyError (Option (Nat × Nat))
  graph_sp_list_calls : Nat
  assignment_list_calls : Nat
  caught : Option ApiError
  assignments_to_remove : List RoleAssignment
  orphaned_assignments : List RoleAssignment
  total_found : Nat
  delete_calls : List String
  assignments_removed : Nat

/-- The `elif` branch of the partition loop (destroy_iam.py lines 63–76): an
assignment is an orphan candidate when it did not match a target principal,
no explicit object id was given, `scope` and `role` are truthy, the scopes
relate by substring in either direction, and the best-effort role-definition
lookup succeeds with the requested role name (a lookup failure is swallowed
by `except: pass` and the assignment is skipped). -/
def is_orphan_candidate (env : DestroyEnv) (sp_obj_id role scope : Option String)
    (target_sp_ids : List String) (assignment : RoleAssignment) : Bool :=
  !(target_sp_ids.contains assignment.principal_id) &&
  !(truthy sp_obj_id) && truthy scope && truthy role &&
  (str_in (optStr scope) assignment.scope || str_in assignment.scope (optStr scope)) &&
  (match env.get_role_definition assignment.role_definition_id with
   | Except.ok role_def => role_def.role_name == optStr role
   | Except.error _ => false)

/-- Whether the per-assignment deletion attempt succeeds (the surrounding
`try`/`except` logs a failure and continues). -/
def delete_succeeds (env : DestroyEnv) (assignment : RoleAssignment) : Bool :=
  match env.delete_by_id assignment.id with
  | Except.ok _ => true
  | Except.error _ => false

/-- Target principal resolution (destroy_iam.py lines 27–42): the provided
object id is used directly; otherwise the graph listing is scanned for
display-name matches (an empty match list still proceeds to the orphan check).
The second component counts the `service_principals.get()` calls issued. -/
def resolve_target_sp_ids (env : DestroyEnv) (sp_obj_id sp_name : Option String) :
    Except ApiError (List String) × Nat :=
  if truthy sp_obj_id then
    (Except.ok [optStr sp_obj_id], 0)
  else
    (env.service_principals.map (fun sps =>
      (sps.filter (fun sp => sp.display_name == optStr sp_name)).map (fun sp => sp.id)), 1)

/-- Shallow embedding of `remove_all_iam_roles_async` (destroy_iam.py lines
7–133).  The partition `for` loop appends each listed assignment to
`assignments_to_remove` when its principal is a target, else possibly to
`orphaned_assignments`; it is rendered as two filters with complementary
guards.  Both removal loops attempt every element independently. -/
def remove_all_iam_roles_async (env : DestroyEnv)
    (sp_obj_id sp_name role scope : Option String) : DestroyRun :=
  -- if not sp_obj_id and not sp_name: raise ValueError(...)   (before any remote call)
  if !truthy sp_obj_id && !truthy sp_name then
    { retval := Except.error DestroyError.invalidArgument
      graph_sp_list_calls := 0, assignment_list_calls := 0, caught := none
      assignments_to_remove := [], orphaned_assignments := []
      total_found := 0, delete_calls := [], assignments_removed := 0 }
  else
    -- target_sp_ids: the object id if provided, else the name matches from the graph listing
    match resolve_target_sp_ids env sp_obj_id sp_name with
    | (Except.error e, g) =>
      -- graph listing raised: caught by the outer except, which does not re-raise
      { retval := Except.ok none
        graph_sp_list_calls := g, assignment_list_calls := 0, caught := some e
        assignments_to_remove := [], orphaned_assignments := []
        total_found := 0, delete_calls := [], assignments_removed := 0 }
    | (Except.ok target_sp_ids, g) =>
      match env.all_assignments with
      | Except.error e =>
        -- list_for_subscription raised: caught by the outer except
        { retval := Except.ok none
          graph_sp_list_calls := g, assignment_list_calls := 1, caught := some e
          assignments_to_remove := [], orphaned_assignments := []
          total_found := 0, delete_calls := [], assignments_removed := 0 }
      | Except.ok all_assignments =>
        let assignments_to_remove := all_assignments.filter
          (fun assignment => target_sp_ids.contains assignment.principal_id)
        let orphaned_assignments := all_assignments.filter
          (is_orphan_candidate env sp_obj_id role scope target_sp_ids)
        let total_found := assignments_to_remove.length + orphaned_assignments.length
        if total_found == 0 then
          -- print("No role assignments found ..."); return   (bare return -> None)
          { retval := Except.ok none
            graph_sp_list_calls := g, assignment_list_calls := 1, caught := none
            assignments_to_remove := assignments_to_remove
            orphaned_assignments := orphaned_assignments
            total_found := 0, delete_calls := [], assignments_removed := 0 }
        else
          -- the two removal loops: direct assignments first, then orphan candidates
          let batch := assignments_to_remove ++ orphaned_assignments
          { retval := Except.ok none
            graph_sp_list_calls := g, assignment_list_calls := 1, caught := none
            assignments_to_remove := assignments_to_remove
            orphaned_assignments := orphaned_assignments
            total_found := total_found
            delete_calls := batch.map (fun assignment => assignment.id)
            assignments_removed := batch.countP (delete_succeeds env) }

/-! ## Theorems -/

/-- C2: on the SKU filter, a record is excluded if and only if it has a
restriction of type `Location` with reasonCode `NotAvailableForSubscription`
whose `restrictionInfo` location list contains the queried location; hence
records with an empty restriction list, records whose matching restriction
names only other locations, and records with zone-only restrictions are all
retained by `filter_skus`. -/
theorem sku_filter_excludes_iff_location_restricted
    (all_skus : List Sku) (sku : Sku) (location : String) :
    (is_fully_available sku location = false ↔
       ∃ r ∈ sku.restrictions.getD [], locationRestricted location r) ∧
    (sku ∈ filter_skus all_skus location ↔
       sku ∈ all_skus ∧ ¬ ∃ r ∈ sku.restrictions.getD [], locationRestricted location r) := by
  have key : is_fully_available sku location = false ↔
      ∃ r ∈ sku.restrictions.getD [], locationRestricted location r := by
    unfold is_fully_available locationRestricted
    rcases h : sku.restrictions.getD [] with _ | ⟨r, rs⟩ <;>
      simp [List.any_eq_true, Bool.and_eq_true, beq_iff_eq, List.elem_iff]
    tauto
  refine ⟨key, ?_⟩
  rw [filter_skus, List.mem_filter, ← key]
  constructor
  · rintro ⟨h1, h2⟩
    exact ⟨h1, by simp [h2]⟩
  · rintro ⟨h1, h2⟩
    exact ⟨h1, by revert h2; cases is_fully_available sku location <;> simp⟩

/-- Concrete role definition for the creation scenarios. -/
def readerDef : RoleDefinition :=
  { id := "/subscriptions/s1/roleDefinitions/rd-reader", role_name := "Reader" }

/-- Concrete pre-existing assignment matching principal `sp-1` and the Reader
role definition. -/
def existingAssign : RoleAssignment :=
  { id := "/subscriptions/s1/roleAssignments/ra1", name := "ra1"
    principal_id := "sp-1"
    role_definition_id := "/subscriptions/s1/roleDefinitions/rd-reader"
    scope := "/subscriptions/s1" }

/-- Environment in which the desired assignment already exists. -/
def assignEnvExisting : AssignEnv :=
  { role_definitions := Except.ok [readerDef]
    existing_assignments := Except.ok [existingAssign]
    create_result := Except.ok existingAssign
    fresh_name := "uuid-1" }

/-- C1 counterexample: in an environment whose listing already contains an
assignment with matching `principalId` and `roleDefinitionId`, the second call
issues no create call — but its Python return value is `None` (a bare
`return`), not the pre-existing assignment, refuting the claim's final clause. -/
theorem assign_existing_counterexample :
    assign_iam_role_async assignEnvExisting "sp-1" "Reader" "/subscriptions/s1" =
      Except.ok { retval := none, create_calls := [] } ∧
    assign_iam_role_async assignEnvExisting "sp-1" "Reader" "/subscriptions/s1" ≠
      Except.ok { retval := some existingAssign, create_calls := [] } := by
  constructor
  · rfl
  · intro h
    rw [show assign_iam_role_async assignEnvExisting "sp-1" "Reader" "/subscriptions/s1" =
          Except.ok { retval := none, create_calls := [] } from rfl] at h
    simp at h

/-- C1 (amended): when the listing of existing assignments at the scope
contains one whose `principalId` and `roleDefinitionId` match, the create path
issues no create call and returns `None` (the pre-existing assignment is only
logged, not returned), so no second assignment is created. -/
theorem assign_second_call_is_noop (env : AssignEnv) (sp_obj_id role scope : String)
    (defs : List RoleDefinition) (rd : RoleDefinition) (rest : List RoleDefinition)
    (assigns : List RoleAssignment)
    (hdefs : env.role_definitions = Except.ok defs)
    (hfilter : defs.filter (fun d => d.role_name == role) = rd :: rest)
    (hassigns : env.existing_assignments = Except.ok assigns)
    (hmatch : assigns.any (fun a =>
        a.principal_id == sp_obj_id && a.role_definition_id == rd.id) = true) :
    assign_iam_role_async env sp_obj_id role scope =
      Except.ok { retval := none, create_calls := [] } := by
  have hsome : (assigns.find? (fun a =>
      a.principal_id == sp_obj_id && a.role_definition_id == rd.id)).isSome := by
    rw [List.find?_isSome]
    simpa [List.any_eq_true] using hmatch
  rcases hf : assigns.find? (fun a =>
      a.principal_id == sp_obj_id && a.role_definition_id == rd.id) with _ | a
  · rw [hf] at hsome; simp at hsome
  · simp [assign_iam_role_async, hdefs, hassigns, hfilter, hf, Except.mapError,
      bind, Except.bind, pure, Except.pure]

/-- C1 witness: the amended theorem applied to the concrete environment. -/
theorem assign_second_call_is_noop_witness :
    assign_iam_role_async assignEnvExisting "sp-1" "Reader" "/subscriptions/s1" =
      Except.ok { retval := none, create_calls := [] } :=
  assign_second_call_is_noop assignEnvExisting "sp-1" "Reader" "/subscriptions/s1"
    [readerDef] readerDef [] [existingAssign] rfl (by decide) rfl (by decide)

/-- Environment where the requested role resolves to no definition. -/
def assignEnvNoRole : AssignEnv :=
  { role_definitions := Except.ok [readerDef]
    existing_assignments := Except.ok []
    create_result := Except.ok existingAssign
    fresh_name := "uuid-2" }

/-- Environment where listing role definitions raises. -/
def assignEnvDefsErr : AssignEnv :=
  { role_definitions := Except.error { msg := "defs boom" }
    existing_assignments := Except.ok []
    create_result := Except.ok existingAssign
    fresh_name := "uuid-3" }

/-- Environment where listing existing assignments raises. -/
def assignEnvAssignsErr : AssignEnv :=
  { role_definitions := Except.ok [readerDef]
    existing_assignments := Except.error { msg := "list boom" }
    create_result := Except.ok existingAssign
    fresh_name := "uuid-4" }

/-- Environment where the create call raises. -/
def assignEnvCreateErr : AssignEnv :=
  { role_definitions := Except.ok [readerDef]
    existing_assignments := Except.ok []
    create_result := Except.error { msg := "create boom" }
    fresh_name := "uuid-5" }

/-- C7: on the create path, a role-definition listing that yields zero matches
for the exact role name fails with `RoleNotFound`, and a remote failure in any
of steps 1–4 (listing role definitions, listing existing assignments, creating
the assignment) is propagated to the caller, not swallowed. -/
theorem assign_role_not_found_and_errors_propagate
    (env : AssignEnv) (sp_obj_id role scope : String) :
    (∀ defs, env.role_definitions = Except.ok defs →
       defs.filter (fun d => d.role_name == role) = [] →
       assign_iam_role_async env sp_obj_id role scope =
         Except.error (AssignError.roleNotFound role)) ∧
    (∀ e, env.role_definitions = Except.error e →
       assign_iam_role_async env sp_obj_id role scope =
         Except.error (AssignError.api e)) ∧
    (∀ e defs rd rest, env.role_definitions = Except.ok defs →
       defs.filter (fun d => d.role_name == role) = rd :: rest →
       env.existing_assignments = Except.error e →
       assign_iam_role_async env sp_obj_id role scope =
         Except.error (AssignError.api e)) ∧
    (∀ e defs rd rest assigns, env.role_definitions = Except.ok defs →
       defs.filter (fun d => d.role_name == role) = rd :: rest →
       env.existing_assignments = Except.ok assigns →
       assigns.any (fun a =>
         a.principal_id == sp_obj_id && a.role_definition_id == rd.id) = false →
       env.create_result = Except.error e →
       assign_iam_role_async env sp_obj_id role scope =
         Except.error (AssignError.api e)) := by
  refine ⟨?_, ?_, ?_, ?_⟩
  · intro defs hdefs hfilter
    simp [assign_iam_role_async, hdefs, hfilter, Except.mapError, bind, Except.bind]
  · intro e hdefs
    simp [assign_iam_role_async, hdefs, Except.mapError, bind, Except.bind]
  · intro e defs rd rest hdefs hfilter hassigns
    simp [assign_iam_role_async, hdefs, hfilter, hassigns, Except.mapError, bind, Except.bind]
  · intro e defs rd rest assigns hdefs hfilter hassigns hnomatch hcreate
    have hnone : assigns.find? (fun a =>
        a.principal_id == sp_obj_id && a.role_definition_id == rd.id) = none := by
      rw [List.find?_eq_none]
      intro x hx
      simp [List.any_eq_false] at hnomatch
      simpa using hnomatch x hx
    simp [assign_iam_role_async, hdefs, hfilter, hassigns, hnone, hcreate, Except.mapError,
      bind, Except.bind]

/-- C7 witness: each branch of the theorem applied to a concrete environment. -/
theorem assign_errors_witness :
    assign_iam_role_async assignEnvNoRole "sp-1" "Owner" "/subscriptions/s1" =
      Except.error (AssignError.roleNotFound "Owner") ∧
    assign_iam_role_async assignEnvDefsErr "sp-1" "Reader" "/subscriptions/s1" =
      Except.error (AssignError.api { msg := "defs boom" }) ∧
    assign_iam_role_async assignEnvAssignsErr "sp-1" "Reader" "/subscriptions/s1" =
      Except.error (AssignError.api { msg := "list boom" }) ∧
    assign_iam_role_async assignEnvCreateErr "sp-1" "Reader" "/subscriptions/s1" =
      Except.error (AssignError.api { msg := "create boom" }) :=
  ⟨(assign_role_not_found_and_errors_propagate assignEnvNoRole "sp-1" "Owner"
      "/subscriptions/s1").1 [readerDef] rfl (by decide),
   (assign_role_not_found_and_errors_propagate assignEnvDefsErr "sp-1" "Reader"
      "/subscriptions/s1").2.1 { msg := "defs boom" } rfl,
   (assign_role_not_found_and_errors_propagate assignEnvAssignsErr "sp-1" "Reader"
      "/subscriptions/s1").2.2.1 { msg := "list boom" } [readerDef] readerDef [] rfl
      (by decide) rfl,
   (assign_role_not_found_and_errors_propagate assignEnvCreateErr "sp-1" "Reader"
      "/subscriptions/s1").2.2.2 { msg := "create boom" } [readerDef] readerDef [] [] rfl
      (by decide) rfl (by decide) rfl⟩

/-- The password credential the creation tail posts: the configured display
name, expiring `now + relativedelta(years=getD 2, months=getD 0, days=getD 0)`. -/
def posted_credential (secret_name : String) (expiry_config : ExpiryConfig) : PasswordCredential :=
  { display_name := secret_name
    end_date_time := PyDateTime.add PyDateTime.now
      { years := expiry_config.EXPIRY_YEARS.getD 2
        months := expiry_config.EXPIRY_MONTHS.getD 0
        days := expiry_config.EXPIRY_DAYS.getD 0 } }

/-- C3: once the application object id resolves, secret issuance returns the
sentinel with no create call when one or more password credentials already
exist; when none exist it posts exactly one credential whose expiry is
`now + years + months + days` (defaults 2/0/0) and returns the freshly
generated secret value. -/
theorem secret_issuance_sentinel_or_fresh (env : GraphEnv)
    (app_id secret_name : String) (expiry_config : ExpiryConfig)
    (apps : List Application) (app : Application) (details : AppDetails)
    (happs : env.applications = Except.ok apps)
    (hfind : apps.find? (fun a => a.app_id == app_id) = some app)
    (hdetails : env.app_details app.id = Except.ok details) :
    (details.password_credentials.getD [] ≠ [] →
       create_client_secret_async env app_id secret_name expiry_config =
         Except.ok { retval := EXISTING_SECRET_SENTINEL, add_password_calls := [] }) ∧
    (∀ created, details.password_credentials.getD [] = [] →
       env.add_password app.id (posted_credential secret_name expiry_config) =
         Except.ok created →
       create_client_secret_async env app_id secret_name expiry_config =
         Except.ok { retval := created.secret_text
                     add_password_calls :=
                       [(app.id, posted_credential secret_name expiry_config)] }) := by
  constructor
  · intro hne
    rcases hcreds : details.password_credentials.getD [] with _ | ⟨c, cs⟩
    · exact absurd hcreds hne
    · simp [create_client_secret_async, happs, hfind, hdetails, hcreds,
        Except.mapError, bind, Except.bind]
  · intro created hempty hadd
    simp [create_client_secret_async, happs, hfind, hdetails, hempty,
      create_client_secret_tail, posted_credential, hadd,
      Except.mapError, bind, Except.bind] at *

/-- Concrete application and environments for the secret-issuance scenarios. -/
def appRec : Application := { id := "obj-1", app_id := "app-1" }

/-- A pre-existing password credential. -/
def credOld : PasswordCredential := { display_name := "old", end_date_time := PyDateTime.now }

/-- Environment where the application already holds a password credential. -/
def graphEnvExisting : GraphEnv :=
  { applications := Except.ok [appRec]
    app_details := fun _ => Except.ok { password_credentials := some [credOld] }
    add_password := fun _ _ => Except.ok { secret_text := "fresh-secret", key_id := "k1" } }

/-- Environment where the application holds no password credential. -/
def graphEnvFresh : GraphEnv :=
  { applications := Except.ok [appRec]
    app_details := fun _ => Except.ok { password_credentials := none }
    add_password := fun _ _ => Except.ok { secret_text := "fresh-secret", key_id := "k1" } }

/-- Default (all-absent) expiry configuration. -/
def cfgDefault : ExpiryConfig :=
  { EXPIRY_YEARS := none, EXPIRY_MONTHS := none, EXPIRY_DAYS := none }

/-- C3 witness: both branches of the theorem at concrete environments. -/
theorem secret_issuance_witness :
    create_client_secret_async graphEnvExisting "app-1" "s" cfgDefault =
      Except.ok { retval := EXISTING_SECRET_SENTINEL, add_password_calls := [] } ∧
    create_client_secret_async graphEnvFresh "app-1" "s" cfgDefault =
      Except.ok { retval := "fresh-secret"
                  add_password_calls := [("obj-1", posted_credential "s" cfgDefault)] } :=
  ⟨(secret_issuance_sentinel_or_fresh graphEnvExisting "app-1" "s" cfgDefault
      [appRec] appRec { password_credentials := some [credOld] } rfl (by decide) rfl).1
      (by decide),
   (secret_issuance_sentinel_or_fresh graphEnvFresh "app-1" "s" cfgDefault
      [appRec] appRec { password_credentials := none } rfl (by decide) rfl).2
      { secret_text := "fresh-secret", key_id := "k1" } rfl rfl⟩

/-- Environment where the existence check itself raises. -/
def graphEnvCheckErr : GraphEnv :=
  { applications := Except.ok [appRec]
    app_details := fun _ => Except.error { msg := "check boom" }
    add_password := fun _ _ => Except.ok { secret_text := "fresh-secret", key_id := "k1" } }

/-- C9: when the existence check for password credentials raises, the issuer
neither fails nor returns the sentinel — it proceeds to the creation tail,
posting one credential and returning the fresh secret value; the sentinel
short-circuit therefore requires a successful, non-empty check. -/
theorem secret_check_failure_proceeds (env : GraphEnv)
    (app_id secret_name : String) (expiry_config : ExpiryConfig)
    (apps : List Application) (app : Application) (e : ApiError) (created : AddedSecret)
    (happs : env.applications = Except.ok apps)
    (hfind : apps.find? (fun a => a.app_id == app_id) = some app)
    (hdetails : env.app_details app.id = Except.error e)
    (hadd : env.add_password app.id (posted_credential secret_name expiry_config) =
      Except.ok created) :
    create_client_secret_async env app_id secret_name expiry_config =
      Except.ok { retval := created.secret_text
                  add_password_calls :=
                    [(app.id, posted_credential secret_name expiry_config)] } := by
  simp [create_client_secret_async, happs, hfind, hdetails,
    create_client_secret_tail, posted_credential, Except.mapError, bind, Except.bind] at *
  simp [hadd]

/-- C9 witness: the theorem at a concrete environment whose check raises. -/
theorem secret_check_failure_witness :
    create_client_secret_async graphEnvCheckErr "app-1" "s" cfgDefault =
      Except.ok { retval := "fresh-secret"
                  add_password_calls := [("obj-1", posted_credential "s" cfgDefault)] } :=
  secret_check_failure_proceeds graphEnvCheckErr "app-1" "s" cfgDefault
    [appRec] appRec { msg := "check boom" }
    { secret_text := "fresh-secret", key_id := "k1" } rfl (by decide) rfl rfl

/-- Direct-match partition of a run (the first filter of the partition loop). -/
def direct_matches (tids : List String) (all : List RoleAssignment) : List RoleAssignment :=
  all.filter (fun a => tids.contains a.principal_id)

/-- Orphan-candidate partition of a run (the `elif` filter of the partition loop). -/
def orphan_matches (env : DestroyEnv) (sp_obj_id role scope : Option String)
    (tids : List String) (all : List RoleAssignment) : List RoleAssignment :=
  all.filter (is_orphan_candidate env sp_obj_id role scope tids)

/-- Characterization of a run of `remove_all_iam_roles_async` in which the
argument check passes, target resolution succeeds and the subscription-wide
assignment listing succeeds: the run is exactly the partition/attempt/count
record (both the `total_found == 0` early return and the removal loops
produce it). -/
theorem remove_run_ok_spec (env : DestroyEnv) (sp_obj_id sp_name role scope : Option String)
    (tids : List String) (g : Nat) (all : List RoleAssignment)
    (hargs : (!truthy sp_obj_id && !truthy sp_name) = false)
    (hres : resolve_target_sp_ids env sp_obj_id sp_name = (Except.ok tids, g))
    (hall : env.all_assignments = Except.ok all) :
    remove_all_iam_roles_async env sp_obj_id sp_name role scope =
      { retval := Except.ok none
        graph_sp_list_calls := g
        assignment_list_calls := 1
        caught := none
        assignments_to_remove := direct_matches tids all
        orphaned_assignments := orphan_matches env sp_obj_id role scope tids all
        total_found := (direct_matches tids all).length +
          (orphan_matches env sp_obj_id role scope tids all).length
        delete_calls := (direct_matches tids all ++
          orphan_matches env sp_obj_id role scope tids all).map (fun a => a.id)
        assignments_removed := (direct_matches tids all ++
          orphan_matches env sp_obj_id role scope tids all).countP (delete_succeeds env) } := by
  unfold remove_all_iam_roles_async
  rw [hres, hall]
  simp only [hargs, Bool.false_eq_true, if_false, direct_matches, orphan_matches]
  by_cases h0 : (all.filter (fun a => tids.contains a.principal_id)).length +
      (all.filter (is_orphan_candidate env sp_obj_id role scope tids)).length = 0
  · rcases Nat.add_eq_zero.mp h0 with ⟨h1, h2⟩
    rw [List.length_eq_zero] at h1 h2
    have hb : ((all.filter (fun a => tids.contains a.principal_id)).length +
        (all.filter (is_orphan_candidate env sp_obj_id role scope tids)).length == 0) = true := by
      simpa using h0
    rw [if_pos hb, h1, h2]
    simp
  · have hb : ¬ ((all.filter (fun a => tids.contains a.principal_id)).length +
        (all.filter (is_orphan_candidate env sp_obj_id role scope tids)).length == 0) = true := by
      simpa using h0
    rw [if_neg hb]

instance exceptDecEq {ε α : Type} [DecidableEq ε] [DecidableEq α] :
    DecidableEq (Except ε α)
  | Except.ok a, Except.ok b =>
    if h : a = b then isTrue (by rw [h]) else isFalse (by intro hc; cases hc; exact h rfl)
  | Except.ok _, Except.error _ => isFalse (by intro hc; cases hc)
  | Except.error _, Except.ok _ => isFalse (by intro hc; cases hc)
  | Except.error e, Except.error f =>
    if h : e = f then isTrue (by rw [h]) else isFalse (by intro hc; cases hc; exact h rfl)

/-- Service principal matched by name in the teardown scenarios. -/
def spRec : ServicePrincipal := { id := "sp-1", display_name := "my-sp" }

/-- Assignment held directly by the target principal. -/
def directAssign : RoleAssignment :=
  { id := "ra-direct", name := "d1", principal_id := "sp-1"
    role_definition_id := "/subscriptions/s1/roleDefinitions/rd-reader"
    scope := "/subscriptions/s1" }

/-- Assignment referencing a deleted principal at a child scope. -/
def orphanAssign : RoleAssignment :=
  { id := "ra-orphan", name := "o1", principal_id := "sp-gone"
    role_definition_id := "/subscriptions/s1/roleDefinitions/rd-reader"
    scope := "/subscriptions/s1/resourceGroups/rg1" }

/-- Teardown environment with one direct and one orphaned assignment; the
deletion of the direct one fails, the deletion of the orphaned one succeeds. -/
def destroyEnvBoth : DestroyEnv :=
  { service_principals := Except.ok [spRec]
    all_assignments := Except.ok [directAssign, orphanAssign]
    get_role_definition := fun i =>
      if i == "/subscriptions/s1/roleDefinitions/rd-reader" then Except.ok readerDef
      else Except.error { msg := "role definition not found" }
    delete_by_id := fun i =>
      if i == "ra-direct" then Except.error { msg := "delete failed" } else Except.ok () }

/-- Teardown environment with no role assignments at all. -/
def destroyEnvEmpty : DestroyEnv :=
  { service_principals := Except.ok [spRec]
    all_assignments := Except.ok []
    get_role_definition := fun _ => Except.error { msg := "role definition not found" }
    delete_by_id := fun _ => Except.ok () }

/-- C4: when a principal object id is supplied, the orphan-candidate partition
is empty on every path of the teardown reconciler — the sweep runs only in
name-based mode. -/
theorem teardown_objid_no_orphan_sweep (env : DestroyEnv)
    (sp_obj_id sp_name role scope : Option String)
    (h : truthy sp_obj_id = true) :
    (remove_all_iam_roles_async env sp_obj_id sp_name role scope).orphaned_assignments = [] := by
  have hargs : (!truthy sp_obj_id && !truthy sp_name) = false := by simp [h]
  have hres : resolve_target_sp_ids env sp_obj_id sp_name =
      (Except.ok [optStr sp_obj_id], 0) := by
    simp [resolve_target_sp_ids, h]
  rcases hall : env.all_assignments with e | all
  · unfold remove_all_iam_roles_async
    rw [hres, hall]
    simp [hargs]
  · rw [remove_run_ok_spec env sp_obj_id sp_name role scope _ _ _ hargs hres hall]
    show orphan_matches env sp_obj_id role scope [optStr sp_obj_id] all = []
    rw [orphan_matches, List.filter_eq_nil_iff]
    intro a _
    simp [is_orphan_candidate, h]

/-- C4 witness: an object-id invocation against an environment that does hold
a would-be orphan candidate still sweeps nothing. -/
theorem teardown_objid_no_orphan_sweep_witness :
    (remove_all_iam_roles_async destroyEnvBoth (some "sp-1") none (some "Reader")
      (some "/subscriptions/s1")).orphaned_assignments = [] :=
  teardown_objid_no_orphan_sweep destroyEnvBoth (some "sp-1") none (some "Reader")
    (some "/subscriptions/s1") (by decide)

/-- C5 counterexample: a name-based run that finds two assignments and removes
one computes `total_found = 2`, `assignments_removed = 1`, yet its Python
return value is `None` — the counts are only logged, never returned. -/
theorem teardown_returns_none_counterexample :
    (remove_all_iam_roles_async destroyEnvBoth none (some "my-sp") (some "Reader")
      (some "/subscriptions/s1")).total_found = 2 ∧
    (remove_all_iam_roles_async destroyEnvBoth none (some "my-sp") (some "Reader")
      (some "/subscriptions/s1")).assignments_removed = 1 ∧
    (remove_all_iam_roles_async destroyEnvBoth none (some "my-sp") (some "Reader")
      (some "/subscriptions/s1")).retval = Except.ok none ∧
    (remove_all_iam_roles_async destroyEnvBoth none (some "my-sp") (some "Reader")
      (some "/subscriptions/s1")).retval ≠ Except.ok (some (2, 1)) := by
  refine ⟨by decide, by decide, by decide, ?_⟩
  intro h
  rw [show (remove_all_iam_roles_async destroyEnvBoth none (some "my-sp") (some "Reader")
    (some "/subscriptions/s1")).retval = Except.ok none from by decide] at h
  cases h

/-- C5 (amended): on a run whose listings succeed, the reconciler computes and
logs `found = direct + orphan` and `removed = successCount`; with both
partitions empty it performs no delete call and both counts are zero — but its
return value is `None`, not the counts. -/
theorem teardown_counts_logged_not_returned (env : DestroyEnv)
    (sp_obj_id sp_name role scope : Option String)
    (tids : List String) (g : Nat) (all : List RoleAssignment)
    (hargs : (!truthy sp_obj_id && !truthy sp_name) = false)
    (hres : resolve_target_sp_ids env sp_obj_id sp_name = (Except.ok tids, g))
    (hall : env.all_assignments = Except.ok all) :
    (remove_all_iam_roles_async env sp_obj_id sp_name role scope).total_found =
      (remove_all_iam_roles_async env sp_obj_id sp_name role scope).assignments_to_remove.length +
      (remove_all_iam_roles_async env sp_obj_id sp_name role scope).orphaned_assignments.length ∧
    (remove_all_iam_roles_async env sp_obj_id sp_name role scope).assignments_removed =
      ((remove_all_iam_roles_async env sp_obj_id sp_name role scope).assignments_to_remove ++
       (remove_all_iam_roles_async env sp_obj_id sp_name role scope).orphaned_assignments).countP
        (delete_succeeds env) ∧
    ((remove_all_iam_roles_async env sp_obj_id sp_name role scope).assignments_to_remove = [] ∧
     (remove_all_iam_roles_async env sp_obj_id sp_name role scope).orphaned_assignments = [] →
       (remove_all_iam_roles_async env sp_obj_id sp_name role scope).delete_calls = [] ∧
       (remove_all_iam_roles_async env sp_obj_id sp_name role scope).total_found = 0 ∧
       (remove_all_iam_roles_async env sp_obj_id sp_name role scope).assignments_removed = 0) ∧
    (remove_all_iam_roles_async env sp_obj_id sp_name role scope).retval = Except.ok none := by
  rw [remove_run_ok_spec env sp_obj_id sp_name role scope tids g all hargs hres hall]
  refine ⟨rfl, rfl, ?_, rfl⟩
  rintro ⟨hd, ho⟩
  dsimp only at hd ho
  refine ⟨?_, ?_, ?_⟩ <;> simp [hd, ho]

/-- C5 witness: the amended theorem at an environment with zero matching
assignments: no delete call, `found = 0`, `removed = 0`, return value `None`. -/
theorem teardown_counts_witness :
    (remove_all_iam_roles_async destroyEnvEmpty none (some "my-sp") (some "Reader")
      (some "/subscriptions/s1")).total_found =
      (remove_all_iam_roles_async destroyEnvEmpty none (some "my-sp") (some "Reader")
        (some "/subscriptions/s1")).assignments_to_remove.length +
      (remove_all_iam_roles_async destroyEnvEmpty none (some "my-sp") (some "Reader")
        (some "/subscriptions/s1")).orphaned_assignments.length ∧
    (remove_all_iam_roles_async destroyEnvEmpty none (some "my-sp") (some "Reader")
      (some "/subscriptions/s1")).assignments_removed =
      ((remove_all_iam_roles_async destroyEnvEmpty none (some "my-sp") (some "Reader")
        (some "/subscriptions/s1")).assignments_to_remove ++
       (remove_all_iam_roles_async destroyEnvEmpty none (some "my-sp") (some "Reader")
        (some "/subscriptions/s1")).orphaned_assignments).countP
        (delete_succeeds destroyEnvEmpty) ∧
    ((remove_all_iam_roles_async destroyEnvEmpty none (some "my-sp") (some "Reader")
      (some "/subscriptions/s1")).assignments_to_remove = [] ∧
     (remove_all_iam_roles_async destroyEnvEmpty none (some "my-sp") (some "Reader")
      (some "/subscriptions/s1")).orphaned_assignments = [] →
       (remove_all_iam_roles_async destroyEnvEmpty none (some "my-sp") (some "Reader")
        (some "/subscriptions/s1")).delete_calls = [] ∧
       (remove_all_iam_roles_async destroyEnvEmpty none (some "my-sp") (some "Reader")
        (some "/subscriptions/s1")).total_found = 0 ∧
       (remove_all_iam_roles_async destroyEnvEmpty none (some "my-sp") (some "Reader")
        (some "/subscriptions/s1")).assignments_removed = 0) ∧
    (remove_all_iam_roles_async destroyEnvEmpty none (some "my-sp") (some "Reader")
      (some "/subscriptions/s1")).retval = Except.ok none :=
  teardown_counts_logged_not_returned destroyEnvEmpty none (some "my-sp") (some "Reader")
    (some "/subscriptions/s1") ["sp-1"] 1 [] (by decide) rfl rfl

/-- C6: with neither a principal object id nor a principal name supplied, the
teardown reconciler raises `InvalidArgument` before any remote call: no graph
listing, no assignment listing and no deletion is issued. -/
theorem teardown_missing_args_invalid (env : DestroyEnv)
    (sp_obj_id sp_name role scope : Option String)
    (h1 : truthy sp_obj_id = false) (h2 : truthy sp_name = false) :
    remove_all_iam_roles_async env sp_obj_id sp_name role scope =
      { retval := Except.error DestroyError.invalidArgument
        graph_sp_list_calls := 0, assignment_list_calls := 0, caught := none
        assignments_to_remove := [], orphaned_assignments := []
        total_found := 0, delete_calls := [], assignments_removed := 0 } := by
  unfold remove_all_iam_roles_async
  rw [h1, h2]
  rfl

/-- C6 witness: a concrete invocation with both arguments absent, against an
environment that would otherwise find and delete assignments. -/
theorem teardown_missing_args_witness :
    remove_all_iam_roles_async destroyEnvBoth none none (some "Reader")
      (some "/subscriptions/s1") =
      { retval := Except.error DestroyError.invalidArgument
        graph_sp_list_calls := 0, assignment_list_calls := 0, caught := none
        assignments_to_remove := [], orphaned_assignments := []
        total_found := 0, delete_calls := [], assignments_removed := 0 } :=
  teardown_missing_args_invalid destroyEnvBoth none none (some "Reader")
    (some "/subscriptions/s1") rfl rfl

/-- C8: on a run whose listings succeed, every assignment of the direct-match
partition and then every assignment of the orphan-candidate partition is
attempted for deletion — the attempt list is exactly the concatenation of the
two partitions, independent of which deletions fail — and the removed count is
the number of attempts whose deletion succeeded. -/
theorem teardown_best_effort_deletes (env : DestroyEnv)
    (sp_obj_id sp_name role scope : Option String)
    (tids : List String) (g : Nat) (all : List RoleAssignment)
    (hargs : (!truthy sp_obj_id && !truthy sp_name) = false)
    (hres : resolve_target_sp_ids env sp_obj_id sp_name = (Except.ok tids, g))
    (hall : env.all_assignments = Except.ok all) :
    (remove_all_iam_roles_async env sp_obj_id sp_name role scope).delete_calls =
      ((remove_all_iam_roles_async env sp_obj_id sp_name role scope).assignments_to_remove ++
       (remove_all_iam_roles_async env sp_obj_id sp_name role scope).orphaned_assignments).map
        (fun a => a.id) ∧
    (∀ a, a ∈ (remove_all_iam_roles_async env sp_obj_id sp_name role scope).assignments_to_remove ++
           (remove_all_iam_roles_async env sp_obj_id sp_name role scope).orphaned_assignments →
       a.id ∈ (remove_all_iam_roles_async env sp_obj_id sp_name role scope).delete_calls) ∧
    (remove_all_iam_roles_async env sp_obj_id sp_name role scope).assignments_removed =
      ((remove_all_iam_roles_async env sp_obj_id sp_name role scope).assignments_to_remove ++
       (remove_all_iam_roles_async env sp_obj_id sp_name role scope).orphaned_assignments).countP
        (delete_succeeds env) := by
  rw [remove_run_ok_spec env sp_obj_id sp_name role scope tids g all hargs hres hall]
  refine ⟨rfl, ?_, rfl⟩
  intro a ha
  dsimp only at ha ⊢
  exact List.mem_map_of_mem (fun a => a.id) ha

/-- C8 witness: in the two-assignment environment the direct deletion fails
but the orphan deletion is still attempted and succeeds — both ids are
attempted and exactly one removal is counted. -/
theorem teardown_best_effort_witness :
    (remove_all_iam_roles_async destroyEnvBoth none (some "my-sp") (some "Reader")
      (some "/subscriptions/s1")).delete_calls =
      ((remove_all_iam_roles_async destroyEnvBoth none (some "my-sp") (some "Reader")
        (some "/subscriptions/s1")).assignments_to_remove ++
       (remove_all_iam_roles_async destroyEnvBoth none (some "my-sp") (some "Reader")
        (some "/subscriptions/s1")).orphaned_assignments).map (fun a => a.id) ∧
    (remove_all_iam_roles_async destroyEnvBoth none (some "my-sp") (some "Reader")
      (some "/subscriptions/s1")).delete_calls = ["ra-direct", "ra-orphan"] ∧
    (remove_all_iam_roles_async destroyEnvBoth none (some "my-sp") (some "Reader")
      (some "/subscriptions/s1")).assignments_removed = 1 :=
  ⟨(teardown_best_effort_deletes destroyEnvBoth none (some "my-sp") (some "Reader")
      (some "/subscriptions/s1") ["sp-1"] 1 [directAssign, orphanAssign]
      (by decide) rfl rfl).1,
   by decide, by decide⟩

/-- C10: in every invocation the direct-match and orphan-candidate partitions
are disjoint — a listed assignment whose principal is a resolved target never
also appears as an orphan candidate — and on a duplicate-free listing the
combined deletion batch is duplicate-free, so each assignment is attempted at
most once. -/
theorem teardown_partitions_disjoint (env : DestroyEnv)
    (sp_obj_id sp_name role scope : Option String) :
    (∀ a, a ∈ (remove_all_iam_roles_async env sp_obj_id sp_name role scope).assignments_to_remove →
       a ∉ (remove_all_iam_roles_async env sp_obj_id sp_name role scope).orphaned_assignments) ∧
    (∀ all, env.all_assignments = Except.ok all → all.Nodup →
       ((remove_all_iam_roles_async env sp_obj_id sp_name role scope).assignments_to_remove ++
        (remove_all_iam_roles_async env sp_obj_id sp_name role scope).orphaned_assignments).Nodup) := by
  by_cases hargs : (!truthy sp_obj_id && !truthy sp_name) = true
  · unfold remove_all_iam_roles_async
    rw [if_pos hargs]
    exact ⟨fun a ha => by simp at ha, fun all _ _ => by simp⟩
  · have hargs' : (!truthy sp_obj_id && !truthy sp_name) = false := by
      simpa using hargs
    rcases hres : resolve_target_sp_ids env sp_obj_id sp_name with ⟨res, g⟩
    rcases res with e | tids
    · unfold remove_all_iam_roles_async
      rw [hargs', hres]
      exact ⟨fun a ha => by simp at ha, fun all _ _ => by simp⟩
    · rcases hall : env.all_assignments with e | all
      · unfold remove_all_iam_roles_async
        rw [hargs', hres, hall]
        exact ⟨fun a ha => by simp at ha, fun all' _ _ => by simp⟩
      · rw [remove_run_ok_spec env sp_obj_id sp_name role scope tids g all hargs' hres hall]
        have hdisj : ∀ a, a ∈ direct_matches tids all →
            a ∉ orphan_matches env sp_obj_id role scope tids all := by
          intro a ha hb
          rw [direct_matches, List.mem_filter] at ha
          rw [orphan_matches, List.mem_filter, is_orphan_candidate] at hb
          rw [ha.2] at hb
          simp at hb
        refine ⟨hdisj, ?_⟩
        intro all' hall' hnodup
        have hEq : all = all' := by
          simpa using hall'
        subst hEq
        show (direct_matches tids all ++ orphan_matches env sp_obj_id role scope tids all).Nodup
        exact List.Nodup.append (List.Nodup.filter _ hnodup) (List.Nodup.filter _ hnodup)
          (fun a ha hb => hdisj a ha hb)

/-- C10 witness: in the two-assignment environment the direct assignment is
not an orphan candidate, and the deletion batch over the duplicate-free
listing has no duplicates. -/
theorem teardown_partitions_disjoint_witness :
    directAssign ∉ (remove_all_iam_roles_async destroyEnvBoth none (some "my-sp")
      (some "Reader") (some "/subscriptions/s1")).orphaned_assignments ∧
    ((remove_all_iam_roles_async destroyEnvBoth none (some "my-sp") (some "Reader")
      (some "/subscriptions/s1")).assignments_to_remove ++
     (remove_all_iam_roles_async destroyEnvBoth none (some "my-sp") (some "Reader")
      (some "/subscriptions/s1")).orphaned_assignments).Nodup :=
  ⟨(teardown_partitions_disjoint destroyEnvBoth none (some "my-sp") (some "Reader")
      (some "/subscriptions/s1")).1 directAssign (by decide),
   (teardown_partitions_disjoint destroyEnvBoth none (some "my-sp") (some "Reader")
      (some "/subscriptions/s1")).2 [directAssign, orphanAssign] rfl (by decide)⟩
